import Mathlib

/-!
Verification development for the include_js repository.

The repository has three crates:
  include_js_core    : the validated-text pair JSStr / JSString, whose invariant
                       is that the wrapped text parses as valid Javascript under
                       boa::parse (the Syntax Oracle, an external collaborator);
  include_js_codegen : the include_js! macro and the JSTemplate derive macro,
                       which validates a Handlebars template at derive time by
                       rendering it in strict mode with every struct field mapped
                       to the neutral stand-in [] and running boa::parse on the
                       result, and which generates a render_template method that
                       re-renders with the real field values and wraps the output
                       with JSString::new_unchecked, without another parse;
  include_js         : re-exports.

The Syntax Oracle (boa::parse) is external and is modelled as an arbitrary pure
function from text to an optional parse error, exactly as the code uses it: a
deterministic black box.  The template engine (Handlebars) is also an external
collaborator whose sources are not part of this repository; its segment model
and strict substitution semantics are modelled from the specification (section
4.2): a template is an ordered sequence of literal and placeholder segments,
strict materialization rejects both missing and unknown field names, and the
neutral pass replaces every placeholder by the fixed stand-in [].
-/

namespace IncludeJS

/-- Parse error produced by the Syntax Oracle (boa parse error), kept opaque
apart from a human-readable message, as the code never inspects it. -/
structure JSParseError where
  msg : String
deriving DecidableEq, Repr

/-- The Syntax Oracle: boa parse viewed as a deterministic, side-effect-free
function of the input text.  The value none means the text parsed successfully;
some e means the parse failed with error e. -/
abbrev Oracle : Type := String → Option JSParseError

/-- Borrowed validated text (JSStr in include_js_core).  A transparent wrapper
around the text; the validity invariant is a fact about the construction path,
not extra data. -/
structure JSStr where
  data : String
deriving DecidableEq, Repr

/-- Owned validated text (JSString in include_js_core). -/
structure JSString where
  code : String
deriving DecidableEq, Repr

namespace JSStr

/-- JSStr::new_unchecked: coerces text directly, no check (the unsafe path). -/
def new_unchecked (js : String) : JSStr :=
  ⟨js⟩

/-- JSStr::new: runs the Syntax Oracle over the text; on success coerces via
new_unchecked, on failure returns the oracle error untouched. -/
def new (oracle : Oracle) (js : String) : Except JSParseError JSStr :=
  match oracle js with
  | some e => .error e
  | none => .ok (new_unchecked js)

/-- JSStr::as_str: projects back to the raw text. -/
def as_str (s : JSStr) : String :=
  s.data

end JSStr

namespace JSString

/-- JSString::new_unchecked: wraps the owned text directly, no check. -/
def new_unchecked (code : String) : JSString :=
  ⟨code⟩

/-- JSString::new: delegates the check to JSStr::new on the borrowed text, then
wraps the same owned buffer. -/
def new (oracle : Oracle) (code : String) : Except JSParseError JSString :=
  match JSStr.new oracle code with
  | .error e => .error e
  | .ok _ => .ok ⟨code⟩

/-- JSString::into_string: unwraps the owned text, dropping the invariant. -/
def into_string (s : JSString) : String :=
  s.code

/-- Borrow implementation for JSString: views the owned text as a JSStr via
new_unchecked. -/
def borrow (s : JSString) : JSStr :=
  JSStr.new_unchecked s.code

/-- Deref implementation for JSString: same view as borrow. -/
def deref (s : JSString) : JSStr :=
  JSStr.new_unchecked s.code

/-- AsRef implementation for JSString: delegates to borrow. -/
def as_ref (s : JSString) : JSStr :=
  s.borrow

end JSString

/-- ToOwned implementation for JSStr: copies the viewed text into an owned
JSString via new_unchecked. -/
def JSStr.to_owned (s : JSStr) : JSString :=
  JSString.new_unchecked s.as_str

/-- Modelled from the spec: the template engine (Handlebars) is an external
collaborator whose sources are not part of this repository.  Section 4.2
describes a parsed template as an ordered sequence of segments, each a literal
text run or a named placeholder. -/
inductive Segment where
  | literal (text : String)
  | placeholder (name : String)
deriving DecidableEq, Repr

/-- Field map supplied at render time: placeholder name to the textual form of
the value, in order. -/
abbrev FieldMap : Type := List (String × String)

/-- Names of the placeholder segments of a template, in order. -/
def placeholderNames : List Segment → List String
  | [] => []
  | .literal _ :: rest => placeholderNames rest
  | .placeholder n :: rest => n :: placeholderNames rest

/-- Concatenation of the literal runs of a template; for a template without
placeholders this is the whole template source. -/
def literalText : List Segment → String
  | [] => ""
  | .literal t :: rest => t ++ literalText rest
  | .placeholder _ :: rest => literalText rest

/-- The fixed syntactic stand-in used by the derive-time check: every struct
field is bound to an empty array, which the engine prints as []. -/
def neutralStandIn : String := "[]"

/-- Modelled from the spec (section 4.2): neutralize passes literal segments
through unchanged and replaces every placeholder by the fixed stand-in []. -/
def neutralize : List Segment → String
  | [] => ""
  | .literal t :: rest => t ++ neutralize rest
  | .placeholder _ :: rest => neutralStandIn ++ neutralize rest

/-- First value bound to a name in a field map. -/
def lookupField (fm : FieldMap) (name : String) : Option String :=
  match fm with
  | [] => none
  | kv :: rest => if kv.1 = name then some kv.2 else lookupField rest name

/-- Template errors of the engine contract (spec section 7). -/
inductive TemplateError where
  | MissingField (name : String)
  | UnknownField (name : String)
deriving DecidableEq, Repr

/-- Modelled from the spec (section 4.2): substitution pass of materialize.
Literal segments pass through; each placeholder is replaced by the value bound
to its name, failing with MissingField when the name is absent. -/
def substitute : List Segment → FieldMap → Except TemplateError String
  | [], _ => .ok ""
  | .literal t :: rest, fm => (substitute rest fm).map (fun s => t ++ s)
  | .placeholder n :: rest, fm =>
    match lookupField fm n with
    | none => .error (.MissingField n)
    | some v => (substitute rest fm).map (fun s => v ++ s)

/-- First field-map entry whose name is not a placeholder name of the
template. -/
def firstUnknown (segs : List Segment) (fm : FieldMap) : Option String :=
  match fm with
  | [] => none
  | kv :: rest =>
    if kv.1 ∈ placeholderNames segs then firstUnknown segs rest else some kv.1

/-- Modelled from the spec (section 4.2): materialize under strict mode.  The
strict check rejects supplied names absent from the template with UnknownField;
substitution rejects placeholder names absent from the field map with
MissingField. -/
def materialize (segs : List Segment) (fm : FieldMap) : Except TemplateError String :=
  match firstUnknown segs fm with
  | some n => .error (.UnknownField n)
  | none => substitute segs fm

/-- Errors a derive-time validation can surface; both abort the derive macro.
A syntaxError carries the oracle error together with the text it was produced
against (the neutralized form), modelling that the surfaced parse error refers
to the expanded text, not the original template source. -/
inductive DeriveError where
  | renderError (e : TemplateError)
  | syntaxError (e : JSParseError) (checkedText : String)
deriving DecidableEq, Repr

/-- A validated template: the retained segments; the validity witness is a fact
about the construction path (derive_js_template only emits the JSTemplate impl
after the oracle accepted the neutralized rendering). -/
structure Template where
  segs : List Segment
deriving DecidableEq, Repr

/-- The neutral field map of derive_js_template: every struct field name bound
to the stand-in []. -/
def neutralMap (fieldNames : List String) : FieldMap :=
  fieldNames.map (fun n => (n, neutralStandIn))

/-- Instrumented derive-time validation, from derive_js_template in
include_js_codegen: render the template in strict mode with neutralMap, run the
Syntax Oracle on the expanded text, and only on success produce the validated
template.  The second component records every text submitted to the oracle, in
order, so that oracle usage is part of the observable behaviour. -/
def validateTemplateInstr (oracle : Oracle) (fieldNames : List String)
    (segs : List Segment) : Except DeriveError Template × List String :=
  match materialize segs (neutralMap fieldNames) with
  | .error e => (.error (.renderError e), [])
  | .ok expanded =>
    match oracle expanded with
    | some e => (.error (.syntaxError e expanded), [expanded])
    | none => (.ok ⟨segs⟩, [expanded])

/-- Derive-time validation result (the instrumentation projected away). -/
def validateTemplate (oracle : Oracle) (fieldNames : List String)
    (segs : List Segment) : Except DeriveError Template :=
  (validateTemplateInstr oracle fieldNames segs).1

/-- The engine call inside the generated render_template: strict-mode render of
the template with the field values taken from self, before the unwrap. -/
def renderTemplateResult (segs : List Segment) (fm : FieldMap) :
    Except TemplateError JSString :=
  match materialize segs fm with
  | .error e => .error e
  | .ok s => .ok (JSString.new_unchecked s)

/-- Instrumented generated render_template, from the code emitted by
derive_js_template: it calls the engine, unwraps the result, and wraps the text
with JSString::new_unchecked.  The unwrap means an engine failure aborts the
program; none models that abort, so no error value ever reaches the caller.
The second component records the texts submitted to the Syntax Oracle: the
generated code contains no parse call, so it is empty on every path. -/
def renderTemplateInstr (segs : List Segment) (fm : FieldMap) :
    Option JSString × List String :=
  match renderTemplateResult segs fm with
  | .error _ => (none, [])
  | .ok js => (some js, [])

/-- The generated render_template as the caller sees it. -/
def render_template (segs : List Segment) (fm : FieldMap) : Option JSString :=
  (renderTemplateInstr segs fm).1

/-- Oracle that accepts every text. -/
def acceptAll : Oracle := fun _ => none

/-- Oracle that rejects every text with a fixed error. -/
def rejectAll : Oracle := fun _ => some ⟨"syntax error"⟩

/-- End-to-end scenario A template: let x = placeholder val, then a
semicolon. -/
def demoSegs : List Segment :=
  [.literal "let x = ", .placeholder "val", .literal ";"]

/-- Field map binding val to the text 42. -/
def demoFm : FieldMap := [("val", "42")]

/-- Template whose placeholder set is exactly the pair of names a and b. -/
def segsAB : List Segment :=
  [.placeholder "a", .literal " + ", .placeholder "b"]

/-- Template consisting of a single literal run and no placeholders. -/
def litSegs : List Segment := [.literal "let y = 2;"]

/-- A value bound by lookupField is the value of some entry of the map. -/
theorem lookupField_mem (fm : FieldMap) (n v : String)
    (h : lookupField fm n = some v) : ∃ k, (k, v) ∈ fm := by
  induction fm with
  | nil => simp [lookupField] at h
  | cons kv rest ih =>
    by_cases hk : kv.1 = n
    · refine ⟨kv.1, ?_⟩
      simp [lookupField, hk] at h
      subst h
      exact List.mem_cons_self _ _
    · simp [lookupField, hk] at h
      obtain ⟨k, hkm⟩ := ih h
      exact ⟨k, List.mem_cons_of_mem _ hkm⟩

/-- When every placeholder name of the template is bound in the field map, the
substitution pass succeeds. -/
theorem substitute_ok_of_cov (segs : List Segment) (fm : FieldMap)
    (h : ∀ n ∈ placeholderNames segs, (lookupField fm n).isSome) :
    ∃ s, substitute segs fm = .ok s := by
  induction segs with
  | nil => exact ⟨"", rfl⟩
  | cons sg rest ih =>
    cases sg with
    | literal t =>
      obtain ⟨s, hs⟩ := ih h
      exact ⟨t ++ s, by simp [substitute, hs, Except.map]⟩
    | placeholder n =>
      have hn := h n (by simp [placeholderNames])
      cases hv : lookupField fm n with
      | none => rw [hv] at hn; simp at hn
      | some v =>
        obtain ⟨s, hs⟩ :=
          ih (fun m hm => h m (by simp [placeholderNames]; exact Or.inr hm))
        exact ⟨v ++ s, by simp [substitute, hv, hs, Except.map]⟩

/-- When the substitution pass succeeds, every placeholder name of the template
is bound in the field map. -/
theorem substitute_ok_imp_cov (segs : List Segment) (fm : FieldMap) (s : String)
    (h : substitute segs fm = .ok s) :
    ∀ n ∈ placeholderNames segs, (lookupField fm n).isSome := by
  induction segs generalizing s with
  | nil => simp [placeholderNames]
  | cons sg rest ih =>
    cases sg with
    | literal t =>
      cases hs : substitute rest fm with
      | error e => rw [substitute, hs] at h; simp [Except.map] at h
      | ok s2 => exact ih s2 hs
    | placeholder n =>
      cases hv : lookupField fm n with
      | none => rw [substitute, hv] at h; simp at h
      | some v =>
        cases hs : substitute rest fm with
        | error e => rw [substitute, hv, hs] at h; simp [Except.map] at h
        | ok s2 =>
          intro m hm
          rcases (by simpa [placeholderNames] using hm : m = n ∨ m ∈ placeholderNames rest) with
            rfl | hm2
          · simp [hv]
          · exact ih s2 hs m hm2

/-- A failure of the substitution pass is always a MissingField error naming a
placeholder of the template that is unbound in the field map. -/
theorem substitute_error_missing (segs : List Segment) (fm : FieldMap)
    (e : TemplateError) (h : substitute segs fm = .error e) :
    ∃ n, e = .MissingField n ∧ n ∈ placeholderNames segs ∧
      lookupField fm n = none := by
  induction segs with
  | nil => simp [substitute] at h
  | cons sg rest ih =>
    cases sg with
    | literal t =>
      cases hs : substitute rest fm with
      | error e2 =>
        rw [substitute, hs] at h
        simp [Except.map] at h
        subst h
        obtain ⟨n, hn, hmem, hl⟩ := ih hs
        exact ⟨n, hn, by simp [placeholderNames, hmem], hl⟩
      | ok s2 => rw [substitute, hs] at h; simp [Except.map] at h
    | placeholder n =>
      cases hv : lookupField fm n with
      | none =>
        rw [substitute, hv] at h
        simp at h
        subst h
        exact ⟨n, rfl, by simp [placeholderNames], hv⟩
      | some v =>
        cases hs : substitute rest fm with
        | error e2 =>
          rw [substitute, hv, hs] at h
          simp [Except.map] at h
          subst h
          obtain ⟨m, hm, hmem, hl⟩ := ih hs
          exact ⟨m, hm, by simp [placeholderNames, hmem], hl⟩
        | ok s2 => rw [substitute, hv, hs] at h; simp [Except.map] at h

/-- When every value of the field map is the neutral stand-in, a successful
substitution produces exactly the neutralized rendering. -/
theorem substitute_neutral (segs : List Segment) (fm : FieldMap)
    (hv : ∀ kv ∈ fm, kv.2 = neutralStandIn) (s : String)
    (h : substitute segs fm = .ok s) : s = neutralize segs := by
  induction segs generalizing s with
  | nil =>
    simp [substitute] at h
    simp [neutralize, ← h]
  | cons sg rest ih =>
    cases sg with
    | literal t =>
      cases hs : substitute rest fm with
      | error e => rw [substitute, hs] at h; simp [Except.map] at h
      | ok s2 =>
        rw [substitute, hs] at h
        simp [Except.map] at h
        subst h
        rw [neutralize, ih s2 hs]
    | placeholder n =>
      cases hl : lookupField fm n with
      | none => rw [substitute, hl] at h; simp at h
      | some v =>
        cases hs : substitute rest fm with
        | error e => rw [substitute, hl, hs] at h; simp [Except.map] at h
        | ok s2 =>
          rw [substitute, hl, hs] at h
          simp [Except.map] at h
          subst h
          obtain ⟨k, hk⟩ := lookupField_mem fm n v hl
          have hvv : v = neutralStandIn := hv (k, v) hk
          rw [neutralize, ih s2 hs, hvv]

/-- On a template made only of literal runs, substitution returns the
concatenated literal text for every field map. -/
theorem substitute_literal (segs : List Segment) (fm : FieldMap)
    (h : ∀ sg ∈ segs, ∃ txt, sg = Segment.literal txt) :
    substitute segs fm = .ok (literalText segs) := by
  induction segs with
  | nil => rfl
  | cons sg rest ih =>
    obtain ⟨txt, rfl⟩ := h sg (List.mem_cons_self _ _)
    have hr := ih (fun sg2 h2 => h sg2 (List.mem_cons_of_mem _ h2))
    simp [substitute, hr, literalText, Except.map]

/-- The strict unknown-name scan passes exactly when every supplied name is a
placeholder name of the template. -/
theorem firstUnknown_eq_none (segs : List Segment) (fm : FieldMap) :
    firstUnknown segs fm = none ↔ ∀ kv ∈ fm, kv.1 ∈ placeholderNames segs := by
  induction fm with
  | nil => simp [firstUnknown]
  | cons kv rest ih =>
    by_cases hm : kv.1 ∈ placeholderNames segs
    · simp [firstUnknown, hm, ih]
    · simp [firstUnknown, hm]

/-- Every value of the neutral field map is the neutral stand-in. -/
theorem neutralMap_values (fieldNames : List String) :
    ∀ kv ∈ neutralMap fieldNames, kv.2 = neutralStandIn := by
  intro kv hkv
  simp [neutralMap] at hkv
  obtain ⟨n, -, hn⟩ := hkv
  simp [← hn]

/-- Claim C5: JSStr::new succeeds exactly when the Syntax Oracle accepts the
text, so a success implies that an independent re-parse of the same text also
succeeds; on failure the oracle parse error is returned untouched. -/
theorem claim5_checked_construction_sound (oracle : Oracle) (t : String) :
    ((∃ js, JSStr.new oracle t = .ok js) ↔ oracle t = none) ∧
    (∀ e, oracle t = some e → JSStr.new oracle t = .error e) ∧
    (∀ js, JSStr.new oracle t = .ok js → oracle t = none) := by
  cases h : oracle t <;> simp [JSStr.new, h]

/-- Witness for claim C5 at concrete oracles and texts: construction succeeds
under the accepting oracle and the rejecting oracle error is passed through. -/
theorem claim5_witness :
    acceptAll "let x = 1;" = none ∧
    JSStr.new rejectAll "let x = 1;" = .error ⟨"syntax error"⟩ :=
  ⟨(claim5_checked_construction_sound acceptAll "let x = 1;").2.2
      (JSStr.new_unchecked "let x = 1;") rfl,
   (claim5_checked_construction_sound rejectAll "let x = 1;").2.1
      ⟨"syntax error"⟩ rfl⟩

/-- Claim C6: for every text accepted by JSStr::new, as_str on the resulting
JSStr returns exactly the original text, with no normalization. -/
theorem claim6_round_trip (oracle : Oracle) (t : String) (js : JSStr)
    (h : JSStr.new oracle t = .ok js) : js.as_str = t := by
  cases ho : oracle t <;> simp [JSStr.new, ho] at h
  simp [← h, JSStr.new_unchecked, JSStr.as_str]

/-- Witness for claim C6: the round trip at a concrete accepted text. -/
theorem claim6_witness :
    (JSStr.new_unchecked "let x = 1;").as_str = "let x = 1;" :=
  claim6_round_trip acceptAll "let x = 1;" (JSStr.new_unchecked "let x = 1;") rfl

/-- Claim C9: the owned and borrowed checked constructors agree: JSString::new
succeeds exactly when JSStr::new succeeds on the same text, they fail with the
same oracle error, and on success into_string returns the original string. -/
theorem claim9_owned_borrowed_agree (oracle : Oracle) (s : String) :
    ((∃ x, JSString.new oracle s = .ok x) ↔ (∃ y, JSStr.new oracle s = .ok y)) ∧
    (∀ x, JSString.new oracle s = .ok x → x.into_string = s) ∧
    (∀ e, JSString.new oracle s = .error e ↔ JSStr.new oracle s = .error e) := by
  cases h : oracle s <;>
    simp [JSString.new, JSStr.new, h, JSString.into_string]

/-- Witness for claim C9: agreement of the two constructors at a concrete
string, including into_string returning the original string. -/
theorem claim9_witness :
    (JSString.new_unchecked "let x = 1;").into_string = "let x = 1;" :=
  (claim9_owned_borrowed_agree acceptAll "let x = 1;").2.1
    (JSString.new_unchecked "let x = 1;") rfl

/-- Claim C10: every safe conversion between the validated types preserves the
underlying text exactly, so the oracle keeps accepting the text of every value
reachable through safe conversions once it accepts the constructed text. -/
theorem claim10_conversions_preserve (s : JSStr) (x : JSString) (oracle : Oracle) :
    s.to_owned.into_string = s.as_str ∧
    s.to_owned.borrow = s ∧
    x.borrow.as_str = x.into_string ∧
    x.deref.as_str = x.into_string ∧
    x.as_ref.as_str = x.into_string ∧
    (oracle s.as_str = none → oracle s.to_owned.into_string = none) ∧
    (oracle x.into_string = none →
      oracle x.borrow.as_str = none ∧ oracle x.deref.as_str = none ∧
      oracle x.as_ref.as_str = none) :=
  ⟨rfl, rfl, rfl, rfl, rfl, fun h => h, fun h => ⟨h, h, h⟩⟩

/-- Witness for claim C10 at a concrete validated string and the accepting
oracle. -/
theorem claim10_witness :
    (JSStr.new_unchecked "let x = 1;").to_owned.into_string = "let x = 1;" ∧
    acceptAll ((JSString.new_unchecked "let y;").borrow.as_str) = none :=
  ⟨(claim10_conversions_preserve (JSStr.new_unchecked "let x = 1;")
      (JSString.new_unchecked "let y;") acceptAll).1,
   ((claim10_conversions_preserve (JSStr.new_unchecked "let x = 1;")
      (JSString.new_unchecked "let y;") acceptAll).2.2.2.2.2.2 rfl).1⟩

/-- Claim C4: derive-time validation renders the template with every
placeholder replaced by the stand-in [], yielding exactly the neutralized form,
submits that one text to the Syntax Oracle exactly once, produces the validated
template exactly on oracle success, and produces no template when the
neutralized form fails the oracle. -/
theorem claim4_validation_neutralizes_once (oracle : Oracle)
    (fieldNames : List String) (segs : List Segment) (s : String)
    (hm : materialize segs (neutralMap fieldNames) = .ok s) :
    s = neutralize segs ∧
    (validateTemplateInstr oracle fieldNames segs).2 = [neutralize segs] ∧
    (oracle (neutralize segs) = none →
      validateTemplate oracle fieldNames segs = .ok ⟨segs⟩) ∧
    (∀ e, oracle (neutralize segs) = some e →
      ∀ t, validateTemplate oracle fieldNames segs ≠ .ok t) := by
  have hsub : substitute segs (neutralMap fieldNames) = .ok s := by
    cases hu : firstUnknown segs (neutralMap fieldNames) with
    | none => rw [materialize, hu] at hm; exact hm
    | some n => rw [materialize, hu] at hm; simp at hm
  have hs : s = neutralize segs :=
    substitute_neutral segs (neutralMap fieldNames)
      (neutralMap_values fieldNames) s hsub
  subst hs
  refine ⟨rfl, ?_, ?_, ?_⟩
  · cases ho : oracle (neutralize segs) <;>
      simp [validateTemplateInstr, hm, ho]
  · intro ho
    simp [validateTemplate, validateTemplateInstr, hm, ho]
  · intro e ho t
    simp [validateTemplate, validateTemplateInstr, hm, ho]

/-- Witness for claim C4 on scenario A: the neutralized form of the demo
template, one oracle submission, and a produced template under the accepting
oracle. -/
theorem claim4_witness :
    "let x = [];" = neutralize demoSegs ∧
    (validateTemplateInstr acceptAll ["val"] demoSegs).2 = [neutralize demoSegs] ∧
    validateTemplate acceptAll ["val"] demoSegs = .ok ⟨demoSegs⟩ :=
  have h := claim4_validation_neutralizes_once acceptAll ["val"] demoSegs
    "let x = [];" rfl
  ⟨h.1, h.2.1, h.2.2.1 rfl⟩

/-- Claim C7: when the neutralized form fails the Syntax Oracle, validation
surfaces exactly the oracle error, carried together with the neutralized text
it was produced against, and no validated template is produced. -/
theorem claim7_syntax_error_surfaced (oracle : Oracle) (fieldNames : List String)
    (segs : List Segment) (s : String) (e : JSParseError)
    (hm : materialize segs (neutralMap fieldNames) = .ok s)
    (ho : oracle s = some e) :
    s = neutralize segs ∧
    validateTemplate oracle fieldNames segs =
      .error (.syntaxError e (neutralize segs)) := by
  have hsub : substitute segs (neutralMap fieldNames) = .ok s := by
    cases hu : firstUnknown segs (neutralMap fieldNames) with
    | none => rw [materialize, hu] at hm; exact hm
    | some n => rw [materialize, hu] at hm; simp at hm
  have hs : s = neutralize segs :=
    substitute_neutral segs (neutralMap fieldNames)
      (neutralMap_values fieldNames) s hsub
  subst hs
  exact ⟨rfl, by simp [validateTemplate, validateTemplateInstr, hm, ho]⟩

/-- Witness for claim C7 on scenario B flavour: the rejecting oracle error is
surfaced against the neutralized demo text. -/
theorem claim7_witness :
    "let x = [];" = neutralize demoSegs ∧
    validateTemplate rejectAll ["val"] demoSegs =
      .error (.syntaxError ⟨"syntax error"⟩ (neutralize demoSegs)) :=
  claim7_syntax_error_surfaced rejectAll ["val"] demoSegs "let x = [];"
    ⟨"syntax error"⟩ rfl rfl

/-- Claim C1: once derive-time validation has succeeded, the generated
render_template submits nothing to the Syntax Oracle, and for every field map
satisfying the field-name contract it succeeds, wrapping the materialized text
with JSString::new_unchecked; in particular it never fails with a syntax
error. -/
theorem claim1_render_trusts_witness (oracle : Oracle) (fieldNames : List String)
    (segs : List Segment) (t : Template)
    (hval : validateTemplate oracle fieldNames segs = .ok t)
    (fm : FieldMap)
    (hkeys : ∀ kv ∈ fm, kv.1 ∈ placeholderNames segs)
    (hcov : ∀ n ∈ placeholderNames segs, (lookupField fm n).isSome) :
    (renderTemplateInstr segs fm).2 = [] ∧
    ∃ s, materialize segs fm = .ok s ∧
      render_template segs fm = some (JSString.new_unchecked s) := by
  obtain ⟨s, hsub⟩ := substitute_ok_of_cov segs fm hcov
  have hu : firstUnknown segs fm = none := (firstUnknown_eq_none segs fm).mpr hkeys
  have hmat : materialize segs fm = .ok s := by rw [materialize, hu]; exact hsub
  refine ⟨?_, s, hmat, ?_⟩
  · rw [renderTemplateInstr, renderTemplateResult, hmat]
  · rw [render_template, renderTemplateInstr, renderTemplateResult, hmat]

/-- Witness for claim C1 on scenario A: validated demo template rendered with
val bound to 42 submits nothing to the oracle and wraps the materialized
text. -/
theorem claim1_witness :
    (renderTemplateInstr demoSegs demoFm).2 = [] ∧
    ∃ s, materialize demoSegs demoFm = .ok s ∧
      render_template demoSegs demoFm = some (JSString.new_unchecked s) :=
  claim1_render_trusts_witness acceptAll ["val"] demoSegs ⟨demoSegs⟩ rfl demoFm
    (by
      intro kv hkv
      simp [demoFm] at hkv
      simp [demoSegs, placeholderNames, hkv])
    (by
      intro n hn
      simp [demoSegs, placeholderNames] at hn
      simp [demoFm, lookupField, hn])

/-- Claim C2: for a validated template whose placeholder name set is exactly
the pair a, b, the engine render with only a bound fails with MissingField b,
and the engine render with a, b and an extra c bound fails with UnknownField c:
strict matching rejects both directions of mismatch. -/
theorem claim2_strict_matching_symmetric (oracle : Oracle)
    (fieldNames : List String) (segs : List Segment) (t : Template)
    (hval : validateTemplate oracle fieldNames segs = .ok t)
    (hset : ∀ n, n ∈ placeholderNames segs ↔ (n = "a" ∨ n = "b")) :
    renderTemplateResult segs [("a", "1")] = .error (.MissingField "b") ∧
    renderTemplateResult segs [("a", "1"), ("b", "2"), ("c", "3")] =
      .error (.UnknownField "c") := by
  have ha : "a" ∈ placeholderNames segs := (hset "a").mpr (Or.inl rfl)
  have hb : "b" ∈ placeholderNames segs := (hset "b").mpr (Or.inr rfl)
  have hc : "c" ∉ placeholderNames segs := by
    intro h
    rcases (hset "c").mp h with h2 | h2 <;> simp at h2
  constructor
  · have hu : firstUnknown segs [("a", "1")] = none := by
      simp [firstUnknown, ha]
    cases hsub : substitute segs [("a", "1")] with
    | ok s =>
      have := substitute_ok_imp_cov segs [("a", "1")] s hsub "b" hb
      simp [lookupField] at this
    | error e =>
      obtain ⟨n, rfl, hn, hl⟩ :=
        substitute_error_missing segs [("a", "1")] e hsub
      rcases (hset n).mp hn with rfl | rfl
      · simp [lookupField] at hl
      · rw [renderTemplateResult, materialize, hu, hsub]
  · have hu : firstUnknown segs [("a", "1"), ("b", "2"), ("c", "3")] =
        some "c" := by
      simp [firstUnknown, ha, hb, hc]
    rw [renderTemplateResult, materialize, hu]

/-- Witness for claim C2 at the concrete template with placeholders a and b. -/
theorem claim2_witness :
    renderTemplateResult segsAB [("a", "1")] = .error (.MissingField "b") ∧
    renderTemplateResult segsAB [("a", "1"), ("b", "2"), ("c", "3")] =
      .error (.UnknownField "c") :=
  claim2_strict_matching_symmetric acceptAll ["a", "b"] segsAB ⟨segsAB⟩ rfl
    (by intro n; simp [segsAB, placeholderNames])

/-- Claim C8: a validated template with no placeholder segments materializes to
its literal text byte-for-byte for every field map satisfying the field-name
contract, and the generated render_template returns exactly that text. -/
theorem claim8_literal_preservation (oracle : Oracle) (fieldNames : List String)
    (segs : List Segment) (t : Template)
    (hval : validateTemplate oracle fieldNames segs = .ok t)
    (hlit : ∀ sg ∈ segs, ∃ txt, sg = Segment.literal txt)
    (fm : FieldMap) (hkeys : ∀ kv ∈ fm, kv.1 ∈ placeholderNames segs) :
    materialize segs fm = .ok (literalText segs) ∧
    render_template segs fm = some (JSString.new_unchecked (literalText segs)) := by
  have hu : firstUnknown segs fm = none := (firstUnknown_eq_none segs fm).mpr hkeys
  have hmat : materialize segs fm = .ok (literalText segs) := by
    rw [materialize, hu]
    exact substitute_literal segs fm hlit
  exact ⟨hmat, by rw [render_template, renderTemplateInstr,
    renderTemplateResult, hmat]⟩

/-- Witness for claim C8 at a concrete literal-only validated template rendered
with the empty field map. -/
theorem claim8_witness :
    materialize litSegs [] = .ok (literalText litSegs) ∧
    render_template litSegs [] =
      some (JSString.new_unchecked (literalText litSegs)) :=
  claim8_literal_preservation acceptAll [] litSegs ⟨litSegs⟩ rfl
    (by
      intro sg hsg
      simp [litSegs] at hsg
      exact ⟨"let y = 2;", hsg⟩)
    [] (by intro kv hkv; simp at hkv)

/-- Counterexample to claim C3 as stated: a derive-time validated template (the
scenario A template with field val) rendered with an empty field map makes
materialization fail, yet the generated render_template aborts (the unwrap in
the generated code; none in this model) instead of returning the TemplateError
to the caller; its return type has no error channel at all. -/
theorem claim3_counterexample :
    validateTemplate acceptAll ["val"] demoSegs = .ok ⟨demoSegs⟩ ∧
    materialize demoSegs [] = .error (.MissingField "val") ∧
    render_template demoSegs [] = none :=
  ⟨rfl, rfl, rfl⟩

/-- Amended claim C3: for every validated template and every field map on which
materialization fails, the TemplateError exists only in the engine result that
the generated unwrap consumes; the caller-visible render_template aborts with a
panic and returns no error value. -/
theorem claim3_amended_render_panics (oracle : Oracle) (fieldNames : List String)
    (segs : List Segment) (t : Template)
    (hval : validateTemplate oracle fieldNames segs = .ok t)
    (fm : FieldMap) (e : TemplateError)
    (hfail : materialize segs fm = .error e) :
    renderTemplateResult segs fm = .error e ∧
    render_template segs fm = none := by
  have hr : renderTemplateResult segs fm = .error e := by
    rw [renderTemplateResult, hfail]
  exact ⟨hr, by rw [render_template, renderTemplateInstr, hr]⟩

/-- Witness for the amended claim C3 at the counterexample input. -/
theorem claim3_witness :
    renderTemplateResult demoSegs [] = .error (.MissingField "val") ∧
    render_template demoSegs [] = none :=
  claim3_amended_render_panics acceptAll ["val"] demoSegs ⟨demoSegs⟩ rfl []
    (.MissingField "val") rfl

end IncludeJS
